import Mathlib

/-!
Verification of the client-side geocoding cache and coordinate-resolution
pipeline of the shopwindow2 frontend (`src/services/geocoding.ts`).

The TypeScript service is shallowly embedded as pure Lean functions.
State that the JavaScript module keeps in module-level variables (the
in-memory `geocodeCache`) is threaded explicitly; the number of external
provider calls and the number of inter-batch delays performed are recorded
in the outcome structures so that rate-limit and caching claims can be
stated.  A thrown JavaScript `Error` (promise rejection) is embedded as
`Except.error` with the thrown message; a normal return is `Except.ok`.
Coordinates are embedded as `Rat` (the claims checked here only move
coordinates around and compare them with `null`/`0`; no floating-point
rounding is involved).
-/

namespace Geocoding

/-- One property record as delivered by the backend
(`ShoppingCenter` in `src/types/models.ts`); fields of the interface that
the geocoding service never reads or writes are omitted.  `null` fields
are embedded as `Option`. -/
structure ShoppingCenter where
  id : Nat
  shopping_center_name : String
  address_street : Option String
  address_city : Option String
  address_state : Option String
  address_zip : Option String
  latitude : Option Rat
  longitude : Option Rat
  deriving Repr, DecidableEq, Inhabited

/-- `GeocodeResult` from `src/types/models.ts`. -/
structure GeocodeResult where
  latitude : Rat
  longitude : Rat
  formatted_address : String
  success : Bool
  deriving Repr, DecidableEq, Inhabited

/-- The input property spread together with resolved coordinates, the
`geocoded` flag and the provenance tag (`GeocodedProperty` in
`src/types/models.ts`).  The spread `{...property}` keeps every field of
the source record, embedded here as the `base` field; `latitude` and
`longitude` are the overriding values written by the spread literal. -/
structure GeocodedProperty where
  base : ShoppingCenter
  latitude : Rat
  longitude : Rat
  geocoded : Bool
  geocode_source : String
  deriving Repr, DecidableEq, Inhabited

/-- The in-memory `geocodeCache` object: a string-keyed map from address
to `GeocodeResult`, embedded as an association list where assignment
prepends (later assignments shadow earlier ones). -/
abbrev GeocodeCache := List (String × GeocodeResult)

/-- Reading `geocodeCache[address]`. -/
def cacheGet (cache : GeocodeCache) (address : String) : Option GeocodeResult :=
  match cache with
  | [] => none
  | (k, v) :: rest => if k = address then some v else cacheGet rest address

/-- The assignment `geocodeCache[address] = result`. -/
def cachePut (cache : GeocodeCache) (address : String) (result : GeocodeResult) :
    GeocodeCache :=
  (address, result) :: cache

/-- One entry of `data.results` in the provider's JSON payload: the code
reads `geometry.location.lat`, `geometry.location.lng` and
`formatted_address` of the first entry. -/
structure ProviderResult where
  lat : Rat
  lng : Rat
  formatted_address : String
  deriving Repr, DecidableEq, Inhabited

/-- Outcome of the `fetch` of the geocoding provider: either a parsed JSON
response carrying `data.status` and `data.results`, or a transport-level
failure (a thrown exception inside the `try` block, absorbed by the
`catch`). -/
inductive ProviderOutcome where
  | response (status : String) (results : List ProviderResult)
  | networkError
  deriving Repr, Inhabited

/-- The module's environment: the `VITE_GOOGLE_MAPS_API_KEY` value
(`import.meta.env` yields `''` when the variable is unset, per line 19 of
the source) and the external provider, modelled as a function from the
request's address text to the outcome of the HTTP call. -/
structure GeoEnv where
  apiKey : String
  provider : String → ProviderOutcome

/-- The message of the `Error` thrown by `geocodeAddress` when no API key
is configured (line 67 of the source). -/
def apiKeyErrorMsg : String :=
  "Google Maps API key not configured. Set VITE_GOOGLE_MAPS_API_KEY in .env"

/-- The failed `GeocodeResult` built on a non-OK provider status or a
thrown transport error: zero coordinates, the original address as
`formatted_address`, `success: false`. -/
def failedResult (address : String) : GeocodeResult :=
  { latitude := 0, longitude := 0, formatted_address := address, success := false }

/-- Outcome of one `geocodeAddress` call: the returned `GeocodeResult`,
the cache as left behind by the call, and how many external provider
calls the invocation performed (0 or 1). -/
structure AddressOutcome where
  result : GeocodeResult
  cache : GeocodeCache
  apiCalls : Nat
  deriving Repr, Inhabited

/-- `geocodeAddress` (geocoding.ts lines 58-117).  Checks the cache first;
then validates the API key, throwing when it is the empty string; then
performs the provider call.  On `status === 'OK'` with a non-empty result
list it builds a successful result from the first entry, writes it into
the cache (the write-through `saveCacheToStorage` persists it) and returns
it; any other status, and any thrown transport error, yields the
non-cached `failedResult`. -/
def geocodeAddress (env : GeoEnv) (cache : GeocodeCache) (address : String) :
    Except String AddressOutcome :=
  match cacheGet cache address with
  | some cached => Except.ok { result := cached, cache := cache, apiCalls := 0 }
  | none =>
    if env.apiKey = "" then
      Except.error apiKeyErrorMsg
    else
      match env.provider address with
      | ProviderOutcome.response status results =>
        match results with
        | [] => Except.ok { result := failedResult address, cache := cache, apiCalls := 1 }
        | r :: _ =>
          if status = "OK" then
            let g : GeocodeResult :=
              { latitude := r.lat, longitude := r.lng,
                formatted_address := r.formatted_address, success := true }
            Except.ok { result := g, cache := cachePut cache address g, apiCalls := 1 }
          else
            Except.ok { result := failedResult address, cache := cache, apiCalls := 1 }
      | ProviderOutcome.networkError =>
        Except.ok { result := failedResult address, cache := cache, apiCalls := 1 }

/-- The backend-coordinate validity test of geocodeProperty
(lines 127-132): `latitude !== null && longitude !== null &&
latitude !== 0 && longitude !== 0`. -/
def hasValidBackendCoords (p : ShoppingCenter) : Bool :=
  p.latitude != none && p.longitude != none &&
  p.latitude != some 0 && p.longitude != some 0

/-- Modelled from the spec: `formatAddressForGeocoding` is defined in
`src/services/api.ts`, a file absent from the source snapshot (only the
importing line in geocoding.ts and the call at line 143 are present).
Per the spec, the Address Key is one canonical, deterministic string
built from the property's street/city/state/zip address fields, with the
same normalization at every call site. -/
def formatAddressForGeocoding (p : ShoppingCenter) : String :=
  p.address_street.getD "" ++ ", " ++ p.address_city.getD "" ++ ", " ++
  p.address_state.getD "" ++ " " ++ p.address_zip.getD ""

/-- Outcome of one `geocodeProperty` call: the returned value
(`GeocodedProperty` or the `null` return embedded as `none`), the cache
left behind, and the number of external calls performed. -/
structure PropertyOutcome where
  result : Option GeocodedProperty
  cache : GeocodeCache
  apiCalls : Nat
  deriving Repr, Inhabited

/-- `geocodeProperty` (geocoding.ts lines 123-164).  Valid backend
coordinates win immediately with tag `backend`; otherwise the address is
geocoded, a successful result is returned with the tag chosen by the
ternary `geocodeCache[address] ? 'cache' : 'api'` — evaluated against the
module-level cache AFTER `geocodeAddress` has run — and a failed result
returns `null`.  The source's local `const address =
formatAddressForGeocoding(property)` is inlined at its two use sites. -/
def geocodeProperty (env : GeoEnv) (cache : GeocodeCache) (p : ShoppingCenter) :
    Except String PropertyOutcome :=
  if hasValidBackendCoords p then
    Except.ok
      { result := some
          { base := p, latitude := p.latitude.getD 0, longitude := p.longitude.getD 0,
            geocoded := true, geocode_source := "backend" },
        cache := cache, apiCalls := 0 }
  else
    match geocodeAddress env cache (formatAddressForGeocoding p) with
    | Except.error e => Except.error e
    | Except.ok out =>
      if out.result.success then
        Except.ok
          { result := some
              { base := p, latitude := out.result.latitude,
                longitude := out.result.longitude, geocoded := true,
                geocode_source :=
                  if (cacheGet out.cache (formatAddressForGeocoding p)).isSome
                  then "cache" else "api" },
            cache := out.cache, apiCalls := out.apiCalls }
      else
        Except.ok { result := none, cache := out.cache, apiCalls := out.apiCalls }

/-- `BATCH_SIZE` (geocoding.ts line 176): 10 properties per batch. -/
def BATCH_SIZE : Nat := 10

/-- `DELAY_MS` (geocoding.ts line 177): 200ms delay between batches. -/
def DELAY_MS : Nat := 200

/-- Outcome of resolving one batch: the geocoded results that were pushed
(in batch order), the display names of the failed properties (in batch
order), the cache left behind, and the external calls performed. -/
structure BatchOutcome where
  geocoded : List GeocodedProperty
  failed : List String
  cache : GeocodeCache
  apiCalls : Nat
  deriving Repr, Inhabited

/-- The per-batch step of `geocodeProperties` (lines 185-196):
`Promise.all(batch.map(geocodeProperty))` followed by the `forEach` that
pushes each non-null result onto `geocodedProperties` and each failed
property's `shopping_center_name` onto `failedProperties`, in batch
order.  The module-level cache the concurrent calls share is threaded
sequentially; a rejected promise (thrown error) rejects the whole
`Promise.all`. -/
def processBatch (env : GeoEnv) (cache : GeocodeCache) (batch : List ShoppingCenter) :
    Except String BatchOutcome :=
  match batch with
  | [] => Except.ok { geocoded := [], failed := [], cache := cache, apiCalls := 0 }
  | p :: rest =>
    match geocodeProperty env cache p with
    | Except.error e => Except.error e
    | Except.ok out =>
      match processBatch env out.cache rest with
      | Except.error e => Except.error e
      | Except.ok restOut =>
        match out.result with
        | some g =>
          Except.ok
            { geocoded := g :: restOut.geocoded, failed := restOut.failed,
              cache := restOut.cache, apiCalls := out.apiCalls + restOut.apiCalls }
        | none =>
          Except.ok
            { geocoded := restOut.geocoded,
              failed := p.shopping_center_name :: restOut.failed,
              cache := restOut.cache, apiCalls := out.apiCalls + restOut.apiCalls }

/-- Outcome of one `geocodeProperties` run: the accumulated
`geocodedProperties` and `failedProperties` arrays, the final cache, the
total number of external calls, the number of `setTimeout(DELAY_MS)`
waits performed, and the list of batch slices in the order they were
processed. -/
structure RunOutcome where
  geocoded : List GeocodedProperty
  failed : List String
  cache : GeocodeCache
  apiCalls : Nat
  delays : Nat
  batches : List (List ShoppingCenter)
  deriving Repr, Inhabited

/-- One iteration of the batching loop of `geocodeProperties`
(lines 181-206): `for (i = 0; i < length; i += BATCH_SIZE)` takes the
slice `[i, i + BATCH_SIZE)`, resolves it, and sleeps `DELAY_MS` only
when `i + BATCH_SIZE < length`, i.e. exactly when properties remain
after the current batch.  The loop is embedded structurally on a fuel
argument so that closed runs reduce definitionally; each iteration
consumes at least one property, so fuel equal to the input length (as
supplied by `geocodePropertiesRun`) can never run out, and the fuel-zero
arm with properties remaining is unreachable. -/
def runBatchLoop (env : GeoEnv) :
    Nat → GeocodeCache → List ShoppingCenter → Except String RunOutcome
  | _, cache, [] =>
    Except.ok
      { geocoded := [], failed := [], cache := cache, apiCalls := 0,
        delays := 0, batches := [] }
  | 0, cache, _ :: _ =>
    Except.ok
      { geocoded := [], failed := [], cache := cache, apiCalls := 0,
        delays := 0, batches := [] }
  | fuel + 1, cache, p :: ps =>
    let batch := (p :: ps).take BATCH_SIZE
    let rest := (p :: ps).drop BATCH_SIZE
    match processBatch env cache batch with
    | Except.error e => Except.error e
    | Except.ok b =>
      match runBatchLoop env fuel b.cache rest with
      | Except.error e => Except.error e
      | Except.ok r =>
        Except.ok
          { geocoded := b.geocoded ++ r.geocoded, failed := b.failed ++ r.failed,
            cache := r.cache, apiCalls := b.apiCalls + r.apiCalls,
            delays := (if rest.isEmpty then 0 else 1) + r.delays,
            batches := batch :: r.batches }

/-- The full batching loop of `geocodeProperties` over its input list,
with all loop effects recorded. -/
def geocodePropertiesRun (env : GeoEnv) (cache : GeocodeCache)
    (props : List ShoppingCenter) : Except String RunOutcome :=
  runBatchLoop env props.length cache props

/-- `geocodeProperties` as seen by its caller (lines 171-228): the
function's return value is only the `geocodedProperties` array —
`failedProperties` and the summary counts are logged to the console and
discarded. -/
def geocodeProperties (env : GeoEnv) (cache : GeocodeCache)
    (props : List ShoppingCenter) : Except String (List GeocodedProperty) :=
  (geocodePropertiesRun env cache props).map RunOutcome.geocoded

/-! ### Concrete fixtures

Sample inputs used to evaluate the embedded service on closed instances:
a property with no stored coordinates, a property with authoritative
backend coordinates, and environments in which the provider answers
`OK`, answers `ZERO_RESULTS`, or in which no API key is configured. -/

/-- A property whose backend record carries no coordinates. -/
def propUnresolved : ShoppingCenter :=
  { id := 1, shopping_center_name := "Lonely Plaza",
    address_street := some "123 Main St", address_city := some "Springfield",
    address_state := some "IL", address_zip := some "62701",
    latitude := none, longitude := none }

/-- A property with valid non-zero backend coordinates. -/
def propWithCoords : ShoppingCenter :=
  { id := 2, shopping_center_name := "Backend Mall",
    address_street := some "9 Backed St", address_city := some "Springfield",
    address_state := some "IL", address_zip := some "62702",
    latitude := some 39, longitude := some (-75) }

/-- Environment whose provider resolves every address to `status OK`
with one result at (40, -75). -/
def envProviderOK : GeoEnv :=
  { apiKey := "test-key",
    provider := fun _ => ProviderOutcome.response "OK" [⟨40, -75, "40 Resolved Way"⟩] }

/-- Environment whose provider answers `ZERO_RESULTS` for every address. -/
def envZeroResults : GeoEnv :=
  { apiKey := "test-key",
    provider := fun _ => ProviderOutcome.response "ZERO_RESULTS" [] }

/-- Environment with no configured API key (`import.meta.env` yields the
empty string); the provider is never reachable behind the key check. -/
def envNoKey : GeoEnv :=
  { apiKey := "", provider := fun _ => ProviderOutcome.networkError }

/-- A successful result sitting in the cache from a previous run. -/
def cachedResult : GeocodeResult :=
  { latitude := 41, longitude := -76, formatted_address := "cached fmt", success := true }

/-- The result the provider of `envProviderOK` yields, as cached by a
fresh successful `geocodeAddress` call. -/
def freshResult : GeocodeResult :=
  { latitude := 40, longitude := -75, formatted_address := "40 Resolved Way", success := true }

/-- Twenty-five distinct properties with valid backend coordinates. -/
def propsBatch25 : List ShoppingCenter :=
  (List.range 25).map fun i => { propWithCoords with id := i }

/-- Projects a normally returned outcome out of `Except` (fixtures only
apply this to computations that are proved to return `Except.ok`). -/
def runOutcomeOf (e : Except String RunOutcome) : RunOutcome :=
  e.toOption.getD default

/-- Same projection for `AddressOutcome`. -/
def addressOutcomeOf (e : Except String AddressOutcome) : AddressOutcome :=
  e.toOption.getD default

/-- The outcome of a mixed two-property run: one backend-resolved
property, one that the provider cannot resolve. -/
def runMixed : RunOutcome :=
  runOutcomeOf (geocodePropertiesRun envZeroResults [] [propWithCoords, propUnresolved])

/-- The outcome of a two-property run in which both properties resolve. -/
def runOrdered : RunOutcome :=
  runOutcomeOf (geocodePropertiesRun envProviderOK [] [propWithCoords, propUnresolved])

/-- The outcome of a 25-property run (3 batches of 10, 10, 5). -/
def run25 : RunOutcome :=
  runOutcomeOf (geocodePropertiesRun envNoKey [] propsBatch25)

/-- The outcome of a fresh successful `geocodeAddress` call for
`propUnresolved`'s address. -/
def addrOutFresh : AddressOutcome :=
  addressOutcomeOf
    (geocodeAddress envProviderOK [] (formatAddressForGeocoding propUnresolved))

/-- The outcome of a failed `geocodeAddress` call (provider answers
`ZERO_RESULTS`). -/
def addrOutFailed : AddressOutcome :=
  addressOutcomeOf (geocodeAddress envZeroResults [] "750 Nowhere Rd")

/-! ### Basic cache and client lemmas -/

lemma cacheGet_cachePut_self (cache : GeocodeCache) (address : String)
    (r : GeocodeResult) : cacheGet (cachePut cache address r) address = some r := by
  simp [cacheGet, cachePut]

lemma geocodeAddress_hit (env : GeoEnv) (cache : GeocodeCache) (address : String)
    (r : GeocodeResult) (hh : cacheGet cache address = some r) :
    geocodeAddress env cache address =
      Except.ok { result := r, cache := cache, apiCalls := 0 } := by
  unfold geocodeAddress
  rw [hh]

lemma geocodeAddress_miss_nokey (env : GeoEnv) (cache : GeocodeCache) (address : String)
    (hmiss : cacheGet cache address = none) (hk : env.apiKey = "") :
    geocodeAddress env cache address = Except.error apiKeyErrorMsg := by
  unfold geocodeAddress
  rw [hmiss, if_pos hk]

lemma geocodeAddress_miss_key_ok (env : GeoEnv) (cache : GeocodeCache) (address : String)
    (r : ProviderResult) (rs : List ProviderResult)
    (hmiss : cacheGet cache address = none) (hk : env.apiKey ≠ "")
    (hp : env.provider address = ProviderOutcome.response "OK" (r :: rs)) :
    geocodeAddress env cache address =
      Except.ok
        { result :=
            { latitude := r.lat, longitude := r.lng,
              formatted_address := r.formatted_address, success := true },
          cache := cachePut cache address
            { latitude := r.lat, longitude := r.lng,
              formatted_address := r.formatted_address, success := true },
          apiCalls := 1 } := by
  unfold geocodeAddress
  rw [hmiss, if_neg hk, hp]
  rfl

lemma geocodeAddress_miss_key_fail (env : GeoEnv) (cache : GeocodeCache) (address : String)
    (hmiss : cacheGet cache address = none) (hk : env.apiKey ≠ "")
    (hfail : ∀ r rs, env.provider address ≠ ProviderOutcome.response "OK" (r :: rs)) :
    geocodeAddress env cache address =
      Except.ok { result := failedResult address, cache := cache, apiCalls := 1 } := by
  unfold geocodeAddress
  rw [hmiss, if_neg hk]
  rcases hp : env.provider address with ⟨status, results⟩ | _
  · rcases results with _ | ⟨r, rs⟩
    · rfl
    · have hstatus : status ≠ "OK" := by
        intro hs
        exact hfail r rs (by rw [hp, hs])
      simp [hstatus]
  · rfl

/-- On a cache miss with a configured key, `geocodeAddress` always returns
normally and performs exactly one external call. -/
lemma geocodeAddress_miss_key_one_call (env : GeoEnv) (cache : GeocodeCache)
    (address : String) (hmiss : cacheGet cache address = none) (hk : env.apiKey ≠ "") :
    Except.map AddressOutcome.apiCalls (geocodeAddress env cache address) =
      Except.ok 1 := by
  unfold geocodeAddress
  rw [hmiss, if_neg hk]
  rcases env.provider address with ⟨status, results⟩ | _
  · rcases results with _ | ⟨r, rs⟩
    · rfl
    · by_cases hstatus : status = "OK" <;> simp [hstatus, Except.map]
  · rfl

/-- On a cache miss, a successful return of `geocodeAddress` can only come
from the provider-OK branch: the result was freshly written to the cache
and one external call was made. -/
lemma geocodeAddress_miss_success_shape (env : GeoEnv) (cache : GeocodeCache)
    (address : String) (out : AddressOutcome)
    (hmiss : cacheGet cache address = none)
    (h : geocodeAddress env cache address = Except.ok out)
    (hsucc : out.result.success = true) :
    out.cache = cachePut cache address out.result ∧ out.apiCalls = 1 := by
  by_cases hk : env.apiKey = ""
  · rw [geocodeAddress_miss_nokey env cache address hmiss hk] at h
    exact absurd h (by simp)
  · rcases hp : env.provider address with ⟨status, results⟩ | _
    · rcases results with _ | ⟨r, rs⟩
      · rw [geocodeAddress_miss_key_fail env cache address hmiss hk
          (by intro r rs hc; rw [hp] at hc; exact absurd hc (by simp))] at h
        simp only [Except.ok.injEq] at h
        rw [← h] at hsucc
        exact absurd hsucc (by simp [failedResult])
      · by_cases hstatus : status = "OK"
        · subst hstatus
          rw [geocodeAddress_miss_key_ok env cache address r rs hmiss hk hp] at h
          simp only [Except.ok.injEq] at h
          subst h
          exact ⟨rfl, rfl⟩
        · rw [geocodeAddress_miss_key_fail env cache address hmiss hk
            (by intro r' rs' hc; rw [hp] at hc; simp at hc; exact hstatus hc.1)] at h
          simp only [Except.ok.injEq] at h
          rw [← h] at hsucc
          exact absurd hsucc (by simp [failedResult])
    · rw [geocodeAddress_miss_key_fail env cache address hmiss hk
        (by intro r rs hc; rw [hp] at hc; exact absurd hc (by simp))] at h
      simp only [Except.ok.injEq] at h
      rw [← h] at hsucc
      exact absurd hsucc (by simp [failedResult])

/-- On a cache miss, a failed return of `geocodeAddress` leaves the cache
exactly as it was, is the zero-coordinate `failedResult`, and made one
external call. -/
lemma geocodeAddress_miss_fail_shape (env : GeoEnv) (cache : GeocodeCache)
    (address : String) (out : AddressOutcome)
    (hmiss : cacheGet cache address = none)
    (h : geocodeAddress env cache address = Except.ok out)
    (hfail : out.result.success = false) :
    out.cache = cache ∧ out.result = failedResult address ∧ out.apiCalls = 1 := by
  by_cases hk : env.apiKey = ""
  · rw [geocodeAddress_miss_nokey env cache address hmiss hk] at h
    exact absurd h (by simp)
  · by_cases hok : ∃ r rs, env.provider address = ProviderOutcome.response "OK" (r :: rs)
    · obtain ⟨r, rs, hp⟩ := hok
      rw [geocodeAddress_miss_key_ok env cache address r rs hmiss hk hp] at h
      simp only [Except.ok.injEq] at h
      rw [← h] at hfail
      exact absurd hfail (by simp)
    · push_neg at hok
      rw [geocodeAddress_miss_key_fail env cache address hmiss hk hok] at h
      simp only [Except.ok.injEq] at h
      rw [← h]
      exact ⟨rfl, rfl, rfl⟩

/-! ### Per-property resolution lemmas -/

lemma geocodeProperty_backend (env : GeoEnv) (cache : GeocodeCache)
    (p : ShoppingCenter) (hb : hasValidBackendCoords p = true) :
    geocodeProperty env cache p =
      Except.ok
        { result := some
            { base := p, latitude := p.latitude.getD 0, longitude := p.longitude.getD 0,
              geocoded := true, geocode_source := "backend" },
          cache := cache, apiCalls := 0 } := by
  unfold geocodeProperty
  rw [if_pos hb]

lemma geocodeProperty_cached_success (env : GeoEnv) (cache : GeocodeCache)
    (p : ShoppingCenter) (r : GeocodeResult)
    (hb : hasValidBackendCoords p = false)
    (hh : cacheGet cache (formatAddressForGeocoding p) = some r)
    (hs : r.success = true) :
    geocodeProperty env cache p =
      Except.ok
        { result := some
            { base := p, latitude := r.latitude, longitude := r.longitude,
              geocoded := true, geocode_source := "cache" },
          cache := cache, apiCalls := 0 } := by
  unfold geocodeProperty
  rw [if_neg (by simp [hb]), geocodeAddress_hit env cache _ r hh]
  simp [hs, hh]

lemma geocodeProperty_addr_error (env : GeoEnv) (cache : GeocodeCache)
    (p : ShoppingCenter) (e : String)
    (hb : hasValidBackendCoords p = false)
    (h : geocodeAddress env cache (formatAddressForGeocoding p) = Except.error e) :
    geocodeProperty env cache p = Except.error e := by
  unfold geocodeProperty
  rw [if_neg (by simp [hb]), h]

/-- Whatever path `geocodeProperty` takes, a returned `GeocodedProperty`
spreads the input property: its `base` is the source record. -/
lemma geocodeProperty_base (env : GeoEnv) (cache : GeocodeCache)
    (p : ShoppingCenter) (out : PropertyOutcome) (g : GeocodedProperty)
    (h : geocodeProperty env cache p = Except.ok out)
    (hg : out.result = some g) : g.base = p := by
  unfold geocodeProperty at h
  by_cases hb : hasValidBackendCoords p = true
  · rw [if_pos hb] at h
    simp only [Except.ok.injEq] at h
    rw [← h] at hg
    simp only [Option.some.injEq] at hg
    rw [← hg]
  · rw [if_neg hb] at h
    rcases hga : geocodeAddress env cache (formatAddressForGeocoding p) with e | aout
    · rw [hga] at h
      exact absurd h (by simp)
    · rw [hga] at h
      dsimp only at h
      by_cases hs : aout.result.success = true
      · rw [if_pos hs] at h
        simp only [Except.ok.injEq] at h
        rw [← h] at hg
        simp only [Option.some.injEq] at hg
        rw [← hg]
      · rw [if_neg hs] at h
        simp only [Except.ok.injEq] at h
        rw [← h] at hg
        exact absurd hg (by simp)

/-! ### Claims about per-property resolution -/

/-- C1 — code bug, evaluated at the failing input.  For `propUnresolved`
(no backend coordinates, Address Key absent from the empty cache) with a
provider that answers `status OK` at (40, -75): the claim expects
`geocode_source = 'api'`, but `geocodeProperty` returns
`geocode_source = 'cache'`, because `geocodeAddress` inserts the fresh
success into the module-level cache before the ternary
`geocodeCache[address] ? 'cache' : 'api'` reads it.  The second conjunct
confirms the part of the claim that does hold: the cache afterwards maps
the Address Key to the successful result. -/
theorem C1_fresh_api_success_tagged_cache :
    geocodeProperty envProviderOK [] propUnresolved =
      Except.ok
        { result := some
            { base := propUnresolved, latitude := 40, longitude := -75,
              geocoded := true, geocode_source := "cache" },
          cache := [(formatAddressForGeocoding propUnresolved, freshResult)],
          apiCalls := 1 } ∧
    cacheGet [(formatAddressForGeocoding propUnresolved, freshResult)]
      (formatAddressForGeocoding propUnresolved) = some freshResult :=
  ⟨rfl, rfl⟩

/-- C2 — counterexample.  With no API key configured, a property with no
backend coordinates and an uncached address does not resolve to an
ordinary absent result: `geocodeAddress` throws (the promise rejects) and
both `geocodeProperty` and the whole pipeline run reject with the error,
so the run does not complete with an aggregate result. -/
theorem C2_counterexample :
    geocodeProperty envNoKey [] propUnresolved = Except.error apiKeyErrorMsg ∧
    geocodePropertiesRun envNoKey [] [propUnresolved] =
      Except.error apiKeyErrorMsg :=
  ⟨rfl, rfl⟩

/-- C2 (amended): for every property that reaches the external-call step
while no access credential is configured, `geocodeAddress` throws the
configuration error; `geocodeProperty` propagates it instead of
returning an absent result, and a pipeline run reaching this step
terminates with the same error rather than completing. -/
theorem C2_missing_key_rejects (env : GeoEnv) (cache : GeocodeCache)
    (p : ShoppingCenter) (hkey : env.apiKey = "")
    (hb : hasValidBackendCoords p = false)
    (hmiss : cacheGet cache (formatAddressForGeocoding p) = none) :
    geocodeProperty env cache p = Except.error apiKeyErrorMsg ∧
    geocodePropertiesRun env cache [p] = Except.error apiKeyErrorMsg := by
  have h1 := geocodeProperty_addr_error env cache p apiKeyErrorMsg hb
    (geocodeAddress_miss_nokey env cache _ hmiss hkey)
  refine ⟨h1, ?_⟩
  unfold geocodePropertiesRun
  simp [runBatchLoop, BATCH_SIZE, processBatch, h1]

/-- Witness for C2 (amended) at a concrete input. -/
theorem C2_missing_key_rejects_witness :
    geocodeProperty envNoKey [(formatAddressForGeocoding propWithCoords, cachedResult)]
        propUnresolved = Except.error apiKeyErrorMsg ∧
    geocodePropertiesRun envNoKey
        [(formatAddressForGeocoding propWithCoords, cachedResult)] [propUnresolved] =
      Except.error apiKeyErrorMsg :=
  C2_missing_key_rejects envNoKey
    [(formatAddressForGeocoding propWithCoords, cachedResult)] propUnresolved
    rfl (by decide) (by decide)

/-- C4: after a first `geocodeAddress` call for an uncached address
succeeds via the external provider, a second resolution of the same
address is served from the Cache Store with no second external call
(`apiCalls = 0`) and returns the identical result, and a second
`geocodeProperty` for a property with that address is tagged
`geocode_source = 'cache'`. -/
theorem C4_second_resolution_from_cache (env : GeoEnv) (cache : GeocodeCache)
    (address : String) (out1 : AddressOutcome)
    (hmiss : cacheGet cache address = none)
    (h1 : geocodeAddress env cache address = Except.ok out1)
    (hsucc : out1.result.success = true) :
    geocodeAddress env out1.cache address =
      Except.ok { result := out1.result, cache := out1.cache, apiCalls := 0 } ∧
    ∀ p : ShoppingCenter, hasValidBackendCoords p = false →
      formatAddressForGeocoding p = address →
      geocodeProperty env out1.cache p =
        Except.ok
          { result := some
              { base := p, latitude := out1.result.latitude,
                longitude := out1.result.longitude, geocoded := true,
                geocode_source := "cache" },
            cache := out1.cache, apiCalls := 0 } := by
  obtain ⟨hc, -⟩ :=
    geocodeAddress_miss_success_shape env cache address out1 hmiss h1 hsucc
  have hhit : cacheGet out1.cache address = some out1.result := by
    rw [hc]
    exact cacheGet_cachePut_self cache address out1.result
  refine ⟨geocodeAddress_hit env out1.cache address out1.result hhit, ?_⟩
  intro p hb hfmt
  exact geocodeProperty_cached_success env out1.cache p out1.result hb
    (by rw [hfmt]; exact hhit) hsucc

/-- Witness for C4 at a concrete input. -/
theorem C4_second_resolution_from_cache_witness :
    geocodeAddress envProviderOK addrOutFresh.cache
        (formatAddressForGeocoding propUnresolved) =
      Except.ok
        { result := addrOutFresh.result, cache := addrOutFresh.cache, apiCalls := 0 } ∧
    geocodeProperty envProviderOK addrOutFresh.cache propUnresolved =
      Except.ok
        { result := some
            { base := propUnresolved, latitude := addrOutFresh.result.latitude,
              longitude := addrOutFresh.result.longitude, geocoded := true,
              geocode_source := "cache" },
          cache := addrOutFresh.cache, apiCalls := 0 } := by
  have h := C4_second_resolution_from_cache envProviderOK []
    (formatAddressForGeocoding propUnresolved) addrOutFresh rfl rfl rfl
  exact ⟨h.1, h.2 propUnresolved (by decide) rfl⟩

/-- C5: a property whose own latitude and longitude are non-null and
non-zero resolves immediately with `geocode_source = 'backend'` and its
coordinates unchanged; the cache is returned untouched and no external
call is made (`apiCalls = 0`), so the Geocoding Client is never
invoked. -/
theorem C5_backend_precedence (env : GeoEnv) (cache : GeocodeCache)
    (p : ShoppingCenter) (la lo : Rat)
    (hla : p.latitude = some la) (hlo : p.longitude = some lo)
    (hla0 : la ≠ 0) (hlo0 : lo ≠ 0) :
    geocodeProperty env cache p =
      Except.ok
        { result := some
            { base := p, latitude := la, longitude := lo, geocoded := true,
              geocode_source := "backend" },
          cache := cache, apiCalls := 0 } := by
  have hb : hasValidBackendCoords p = true := by
    simp [hasValidBackendCoords, hla, hlo, hla0, hlo0]
  rw [geocodeProperty_backend env cache p hb, hla, hlo]
  rfl

/-- Witness for C5 at a concrete input. -/
theorem C5_backend_precedence_witness :
    geocodeProperty envNoKey [] propWithCoords =
      Except.ok
        { result := some
            { base := propWithCoords, latitude := 39, longitude := -75,
              geocoded := true, geocode_source := "backend" },
          cache := [], apiCalls := 0 } :=
  C5_backend_precedence envNoKey [] propWithCoords 39 (-75) rfl rfl
    (by norm_num) (by norm_num)

/-- C6: a failed external resolution for address A leaves the cache
exactly as it was (in particular A is still absent), and a subsequent
resolution attempt for A performs another external call instead of being
served from the cache. -/
theorem C6_failure_non_poisoning (env : GeoEnv) (cache : GeocodeCache)
    (address : String) (out : AddressOutcome) (hkey : env.apiKey ≠ "")
    (hmiss : cacheGet cache address = none)
    (h : geocodeAddress env cache address = Except.ok out)
    (hfail : out.result.success = false) :
    out.cache = cache ∧ cacheGet out.cache address = none ∧
    Except.map AddressOutcome.apiCalls (geocodeAddress env out.cache address) =
      Except.ok 1 := by
  obtain ⟨hc, -, -⟩ :=
    geocodeAddress_miss_fail_shape env cache address out hmiss h hfail
  refine ⟨hc, ?_, ?_⟩
  · rw [hc]
    exact hmiss
  · rw [hc]
    exact geocodeAddress_miss_key_one_call env cache address hmiss hkey

/-- Witness for C6 at a concrete input. -/
theorem C6_failure_non_poisoning_witness :
    addrOutFailed.cache = [] ∧ cacheGet addrOutFailed.cache "750 Nowhere Rd" = none ∧
    Except.map AddressOutcome.apiCalls
        (geocodeAddress envZeroResults addrOutFailed.cache "750 Nowhere Rd") =
      Except.ok 1 :=
  C6_failure_non_poisoning envZeroResults [] "750 Nowhere Rd" addrOutFailed
    (by decide) rfl rfl rfl

/-- C9: with no access credential configured, resolution still succeeds
with no external call both for a property with valid non-null non-zero
backend coordinates (tag `backend`) and for a property whose Address Key
is already in the cache with a successful result (tag `cache`, cached
coordinates returned); only the external-API path is unavailable. -/
theorem C9_no_key_cache_and_backend_work (env : GeoEnv) (cache : GeocodeCache)
    (p : ShoppingCenter) (_hkey : env.apiKey = "") :
    (∀ la lo : Rat, p.latitude = some la → p.longitude = some lo →
      la ≠ 0 → lo ≠ 0 →
      geocodeProperty env cache p =
        Except.ok
          { result := some
              { base := p, latitude := la, longitude := lo, geocoded := true,
                geocode_source := "backend" },
            cache := cache, apiCalls := 0 }) ∧
    (∀ r : GeocodeResult, hasValidBackendCoords p = false →
      cacheGet cache (formatAddressForGeocoding p) = some r → r.success = true →
      geocodeProperty env cache p =
        Except.ok
          { result := some
              { base := p, latitude := r.latitude, longitude := r.longitude,
                geocoded := true, geocode_source := "cache" },
            cache := cache, apiCalls := 0 }) := by
  constructor
  · intro la lo hla hlo hla0 hlo0
    have hb : hasValidBackendCoords p = true := by
      simp [hasValidBackendCoords, hla, hlo, hla0, hlo0]
    rw [geocodeProperty_backend env cache p hb, hla, hlo]
    rfl
  · intro r hb hh hs
    exact geocodeProperty_cached_success env cache p r hb hh hs

/-- Witness for C9 at concrete inputs, one per path. -/
theorem C9_no_key_cache_and_backend_work_witness :
    geocodeProperty envNoKey [] propWithCoords =
      Except.ok
        { result := some
            { base := propWithCoords, latitude := 39, longitude := -75,
              geocoded := true, geocode_source := "backend" },
          cache := [], apiCalls := 0 } ∧
    geocodeProperty envNoKey
        [(formatAddressForGeocoding propUnresolved, cachedResult)] propUnresolved =
      Except.ok
        { result := some
            { base := propUnresolved, latitude := 41, longitude := -76,
              geocoded := true, geocode_source := "cache" },
          cache := [(formatAddressForGeocoding propUnresolved, cachedResult)],
          apiCalls := 0 } := by
  constructor
  · exact (C9_no_key_cache_and_backend_work envNoKey [] propWithCoords rfl).1
      39 (-75) rfl rfl (by norm_num) (by norm_num)
  · exact (C9_no_key_cache_and_backend_work envNoKey
      [(formatAddressForGeocoding propUnresolved, cachedResult)] propUnresolved rfl).2
      cachedResult (by decide) rfl rfl

/-! ### Pipeline lemmas -/

/-- Resolving one batch accounts for every property exactly once, keeps
the pushed results in batch order (their source records form a sublist of
the batch), and sends each property either to the geocoded output or to
the failed-name list. -/
lemma processBatch_spec (env : GeoEnv) :
    ∀ (batch : List ShoppingCenter) (cache : GeocodeCache) (b : BatchOutcome),
      processBatch env cache batch = Except.ok b →
      b.geocoded.length + b.failed.length = batch.length ∧
      List.Sublist (b.geocoded.map GeocodedProperty.base) batch ∧
      ∀ p ∈ batch,
        (∃ g ∈ b.geocoded, g.base = p) ∨ p.shopping_center_name ∈ b.failed := by
  intro batch
  induction batch with
  | nil =>
    intro cache b h
    unfold processBatch at h
    simp only [Except.ok.injEq] at h
    subst h
    exact ⟨rfl, by simp, by simp⟩
  | cons p rest ih =>
    intro cache b h
    unfold processBatch at h
    rcases hgp : geocodeProperty env cache p with e | out
    · rw [hgp] at h
      simp at h
    · rw [hgp] at h
      dsimp only at h
      rcases hpb : processBatch env out.cache rest with e | restOut
      · rw [hpb] at h
        simp at h
      · rw [hpb] at h
        dsimp only at h
        obtain ⟨hlen, hsub, hmem⟩ := ih out.cache restOut hpb
        rcases hres : out.result with _ | g
        · rw [hres] at h
          simp only [Except.ok.injEq] at h
          subst h
          refine ⟨?_, ?_, ?_⟩
          · dsimp only
            simp only [List.length_cons]
            omega
          · exact hsub.cons p
          · intro q hq
            rcases List.mem_cons.mp hq with rfl | hq'
            · exact Or.inr (List.mem_cons_self _ _)
            · rcases hmem q hq' with ⟨g', hg', he⟩ | hf
              · exact Or.inl ⟨g', hg', he⟩
              · exact Or.inr (List.mem_cons_of_mem _ hf)
        · rw [hres] at h
          simp only [Except.ok.injEq] at h
          subst h
          have hbase : g.base = p := geocodeProperty_base env cache p out g hgp hres
          refine ⟨?_, ?_, ?_⟩
          · dsimp only
            simp only [List.length_cons]
            omega
          · dsimp only
            simp only [List.map_cons, hbase]
            exact hsub.cons₂ p
          · intro q hq
            rcases List.mem_cons.mp hq with rfl | hq'
            · exact Or.inl ⟨g, List.mem_cons_self _ _, hbase⟩
            · rcases hmem q hq' with ⟨g', hg', he⟩ | hf
              · exact Or.inl ⟨g', List.mem_cons_of_mem _ hg', he⟩
              · exact Or.inr hf

/-- Full behaviour of the batching loop, provided the fuel covers the
input length (as `geocodePropertiesRun` arranges): exact accounting,
order preservation, batch structure and the inter-batch delay count. -/
lemma runBatchLoop_spec (env : GeoEnv) :
    ∀ (fuel : Nat) (props : List ShoppingCenter), props.length ≤ fuel →
      ∀ (cache : GeocodeCache) (out : RunOutcome),
        runBatchLoop env fuel cache props = Except.ok out →
        out.geocoded.length + out.failed.length = props.length ∧
        List.Sublist (out.geocoded.map GeocodedProperty.base) props ∧
        (∀ p ∈ props,
          (∃ g ∈ out.geocoded, g.base = p) ∨
            p.shopping_center_name ∈ out.failed) ∧
        out.batches.flatten = props ∧
        (∀ bt ∈ out.batches, 0 < bt.length ∧ bt.length ≤ BATCH_SIZE) ∧
        (∀ bt ∈ out.batches.dropLast, bt.length = BATCH_SIZE) ∧
        out.delays = (props.length + (BATCH_SIZE - 1)) / BATCH_SIZE - 1 := by
  intro fuel
  induction fuel with
  | zero =>
    intro props hl cache out h
    have hnil : props = [] := List.length_eq_zero.mp (Nat.le_zero.mp hl)
    subst hnil
    unfold runBatchLoop at h
    simp only [Except.ok.injEq] at h
    subst h
    exact ⟨rfl, by simp, by simp, rfl, by simp, by simp, by simp [BATCH_SIZE]⟩
  | succ fuel ih =>
    intro props hl cache out h
    cases props with
    | nil =>
      unfold runBatchLoop at h
      simp only [Except.ok.injEq] at h
      subst h
      exact ⟨rfl, by simp, by simp, rfl, by simp, by simp, by simp [BATCH_SIZE]⟩
    | cons p ps =>
      unfold runBatchLoop at h
      dsimp only at h
      rcases hpb : processBatch env cache ((p :: ps).take BATCH_SIZE) with e | b
      · rw [hpb] at h
        simp at h
      · rw [hpb] at h
        dsimp only at h
        rcases hloop : runBatchLoop env fuel b.cache ((p :: ps).drop BATCH_SIZE)
          with e | r
        · rw [hloop] at h
          simp at h
        · rw [hloop] at h
          dsimp only at h
          simp only [Except.ok.injEq] at h
          subst h
          obtain ⟨hblen, hbsub, hbmem⟩ :=
            processBatch_spec env ((p :: ps).take BATCH_SIZE) cache b hpb
          have hrl : ((p :: ps).drop BATCH_SIZE).length ≤ fuel := by
            simp only [List.length_drop, List.length_cons, BATCH_SIZE]
            simp only [List.length_cons] at hl
            omega
          obtain ⟨hrlen, hrsub, hrmem, hrjoin, hrbatch, hrlast, hrdel⟩ :=
            ih _ hrl b.cache r hloop
          have htd : (p :: ps).take BATCH_SIZE ++ (p :: ps).drop BATCH_SIZE
              = p :: ps := List.take_append_drop _ _
          have htdlen : ((p :: ps).take BATCH_SIZE).length
              + ((p :: ps).drop BATCH_SIZE).length = (p :: ps).length := by
            rw [← List.length_append, htd]
          refine ⟨?_, ?_, ?_, ?_, ?_, ?_, ?_⟩
          · dsimp only
            simp only [List.length_append]
            omega
          · dsimp only
            rw [← htd]
            simp only [List.map_append]
            exact hbsub.append hrsub
          · intro q hq
            have hq' : q ∈ (p :: ps).take BATCH_SIZE ++ (p :: ps).drop BATCH_SIZE := by
              rw [htd]
              exact hq
            rcases List.mem_append.mp hq' with h1 | h2
            · rcases hbmem q h1 with ⟨g, hg, he⟩ | hf
              · exact Or.inl ⟨g, List.mem_append_left _ hg, he⟩
              · exact Or.inr (List.mem_append_left _ hf)
            · rcases hrmem q h2 with ⟨g, hg, he⟩ | hf
              · exact Or.inl ⟨g, List.mem_append_right _ hg, he⟩
              · exact Or.inr (List.mem_append_right _ hf)
          · dsimp only
            simp only [List.flatten_cons]
            rw [hrjoin]
            exact htd
          · intro bt hbt
            rcases List.mem_cons.mp hbt with rfl | hbt'
            · refine ⟨?_, ?_⟩ <;>
                simp only [List.length_take, List.length_cons, BATCH_SIZE] <;>
                omega
            · exact hrbatch bt hbt'
          · rcases hrb : r.batches with _ | ⟨b0, bs⟩
            · dsimp only
              simp [hrb]
            · have hb0 : 0 < b0.length :=
                (hrbatch b0 (by rw [hrb]; exact List.mem_cons_self _ _)).1
              have hdne : (p :: ps).drop BATCH_SIZE ≠ [] := by
                intro hc
                rw [hc, hrb] at hrjoin
                simp only [List.flatten_cons] at hrjoin
                rcases List.append_eq_nil.mp hrjoin with ⟨h0, -⟩
                rw [h0] at hb0
                exact absurd hb0 (by simp)
              have hlen10 : ((p :: ps).take BATCH_SIZE).length = BATCH_SIZE := by
                have : ((p :: ps).drop BATCH_SIZE).length ≠ 0 := by
                  intro hc
                  exact hdne (List.length_eq_zero.mp hc)
                simp only [List.length_drop] at this
                simp only [List.length_take]
                omega
              intro bt hbt
              dsimp only at hbt
              rw [List.dropLast_cons₂] at hbt
              rcases List.mem_cons.mp hbt with rfl | hbt'
              · exact hlen10
              · exact hrlast bt (by rw [hrb]; exact hbt')
          · dsimp only
            have hdl : ((p :: ps).drop BATCH_SIZE).length
                = (p :: ps).length - BATCH_SIZE := List.length_drop _ _
            rcases hdrop : (p :: ps).drop BATCH_SIZE with _ | ⟨d0, ds⟩
            · rw [hdrop] at hrdel hdl
              simp only [List.isEmpty_nil, if_true]
              rw [hrdel]
              simp only [List.length_nil, List.length_cons, BATCH_SIZE] at hdl ⊢
              omega
            · rw [hdrop] at hrdel hdl
              simp only [List.isEmpty_cons, Bool.false_eq_true, if_false]
              rw [hrdel]
              simp only [List.length_cons, BATCH_SIZE] at hdl ⊢
              omega

/-- Same statement at the pipeline entry point. -/
lemma geocodePropertiesRun_spec (env : GeoEnv) (cache : GeocodeCache)
    (props : List ShoppingCenter) (out : RunOutcome)
    (h : geocodePropertiesRun env cache props = Except.ok out) :
    out.geocoded.length + out.failed.length = props.length ∧
    List.Sublist (out.geocoded.map GeocodedProperty.base) props ∧
    (∀ p ∈ props,
      (∃ g ∈ out.geocoded, g.base = p) ∨ p.shopping_center_name ∈ out.failed) ∧
    out.batches.flatten = props ∧
    (∀ bt ∈ out.batches, 0 < bt.length ∧ bt.length ≤ BATCH_SIZE) ∧
    (∀ bt ∈ out.batches.dropLast, bt.length = BATCH_SIZE) ∧
    out.delays = (props.length + (BATCH_SIZE - 1)) / BATCH_SIZE - 1 :=
  runBatchLoop_spec env props.length props le_rfl cache out h

/-! ### Claims about the batch pipeline -/

/-- C3 — counterexample.  On a run in which the provider cannot resolve
the only property, the value `geocodeProperties` returns to its caller is
just `Except.ok []`: it carries no failed-identifier sequence, although
the loop internally collected the failed display name `"Lonely Plaza"`.
The caller therefore cannot learn which properties failed from the
return value. -/
theorem C3_counterexample :
    geocodeProperties envZeroResults [] [propUnresolved] = Except.ok [] ∧
    Except.map RunOutcome.failed
        (geocodePropertiesRun envZeroResults [] [propUnresolved]) =
      Except.ok ["Lonely Plaza"] :=
  ⟨rfl, rfl⟩

/-- C3 (amended): the pipeline entry point returns only the sequence of
successfully geocoded properties; the failed display names are
accumulated internally (and logged), not returned.  Every input property
is still accounted for: it either appears in the returned sequence (its
record is some output's `base`) or contributes its display name to the
internal failed list. -/
theorem C3_returns_only_geocoded (env : GeoEnv) (cache : GeocodeCache)
    (props : List ShoppingCenter) (out : RunOutcome)
    (h : geocodePropertiesRun env cache props = Except.ok out) :
    geocodeProperties env cache props = Except.ok out.geocoded ∧
    ∀ p ∈ props,
      (∃ g ∈ out.geocoded, g.base = p) ∨ p.shopping_center_name ∈ out.failed := by
  refine ⟨?_, (geocodePropertiesRun_spec env cache props out h).2.2.1⟩
  unfold geocodeProperties
  rw [h]
  rfl

/-- Witness for C3 (amended) at a concrete input. -/
theorem C3_returns_only_geocoded_witness :
    geocodeProperties envZeroResults [] [propWithCoords, propUnresolved] =
      Except.ok runMixed.geocoded ∧
    runMixed.failed = ["Lonely Plaza"] :=
  ⟨(C3_returns_only_geocoded envZeroResults [] [propWithCoords, propUnresolved]
      runMixed rfl).1, rfl⟩

/-- C7: for every pipeline run that completes, every input property is
accounted for exactly once: the number of geocoded outputs plus the
number of failed identifiers equals the number of input properties. -/
theorem C7_completeness_of_accounting (env : GeoEnv) (cache : GeocodeCache)
    (props : List ShoppingCenter) (out : RunOutcome)
    (h : geocodePropertiesRun env cache props = Except.ok out) :
    out.geocoded.length + out.failed.length = props.length :=
  (geocodePropertiesRun_spec env cache props out h).1

/-- Witness for C7 at a concrete input (one success, one failure). -/
theorem C7_completeness_of_accounting_witness :
    runMixed.geocoded.length + runMixed.failed.length =
      [propWithCoords, propUnresolved].length :=
  C7_completeness_of_accounting envZeroResults [] [propWithCoords, propUnresolved]
    runMixed rfl

/-- C8: the pipeline partitions its input into consecutive batches
(concatenating the batch slices in order reproduces the input) of at most
`BATCH_SIZE = 10` properties, with every batch before the last of size
exactly `BATCH_SIZE`; it performs a `DELAY_MS = 200` millisecond delay
after every batch except the final one, so a run over N properties
performs exactly `ceil(N / 10) - 1` delays and a run over 0 properties
performs 0 delays. -/
theorem C8_batch_partition_and_delays (env : GeoEnv) (cache : GeocodeCache)
    (props : List ShoppingCenter) (out : RunOutcome)
    (h : geocodePropertiesRun env cache props = Except.ok out) :
    out.batches.flatten = props ∧
    (∀ bt ∈ out.batches, 0 < bt.length ∧ bt.length ≤ BATCH_SIZE) ∧
    (∀ bt ∈ out.batches.dropLast, bt.length = BATCH_SIZE) ∧
    out.delays = (props.length + (BATCH_SIZE - 1)) / BATCH_SIZE - 1 ∧
    (props = [] → out.delays = 0) ∧
    BATCH_SIZE = 10 ∧ DELAY_MS = 200 := by
  obtain ⟨-, -, -, hjoin, hbatch, hlast, hdel⟩ :=
    geocodePropertiesRun_spec env cache props out h
  refine ⟨hjoin, hbatch, hlast, hdel, ?_, rfl, rfl⟩
  intro hnil
  rw [hdel, hnil]
  decide

/-- Witness for C8: 25 properties yield batch sizes [10, 10, 5] and
exactly 2 inter-batch delays. -/
theorem C8_batch_partition_and_delays_witness :
    run25.batches.flatten = propsBatch25 ∧
    run25.delays = (propsBatch25.length + (BATCH_SIZE - 1)) / BATCH_SIZE - 1 ∧
    run25.batches.map List.length = [10, 10, 5] ∧
    run25.delays = 2 :=
  ⟨(C8_batch_partition_and_delays envNoKey [] propsBatch25 run25 rfl).1,
   (C8_batch_partition_and_delays envNoKey [] propsBatch25 run25 rfl).2.2.2.1,
   rfl, rfl⟩

/-- C10: the successfully geocoded properties appear in the output in the
same relative order as their source properties in the input list: the
sequence of their source records (`base`) is a sublist of the input. -/
theorem C10_output_preserves_input_order (env : GeoEnv) (cache : GeocodeCache)
    (props : List ShoppingCenter) (out : RunOutcome)
    (h : geocodePropertiesRun env cache props = Except.ok out) :
    List.Sublist (out.geocoded.map GeocodedProperty.base) props :=
  (geocodePropertiesRun_spec env cache props out h).2.1

/-- Witness for C10 at a concrete input. -/
theorem C10_output_preserves_input_order_witness :
    List.Sublist (runMixed.geocoded.map GeocodedProperty.base)
      [propWithCoords, propUnresolved] :=
  C10_output_preserves_input_order envZeroResults []
    [propWithCoords, propUnresolved] runMixed rfl

end Geocoding
